import Mathlib

/-
Verification of the directory-changing binding in
src/core/src/xmake/os/chdir.c (function xm_os_chdir).

The binding extracts a path string from the first Lua argument, asks the
operating system to change the current working directory of the process,
and pushes the boolean outcome as the single Lua result.

Only chdir.c is part of the given source. The Lua runtime helpers
(luaL_checkstring, lua_pushboolean) and the OS primitive
(tb_directory_current_set) are external collaborators; they are modelled
from the specification, each with a doc comment saying so.
-/

namespace XmakeChdir

/-- A Lua value as seen through the C API in this binding. Lua numbers are
modelled as integers; their string representation is the decimal one. -/
inductive LuaValue where
  | nil
  | boolean (b : Bool)
  | number (n : Int)
  | str (s : String)
  | table
  deriving DecidableEq, Repr

/-- The Lua interpreter state visible to the binding: the argument list of
the current call (index 1 is the head) and the result stack onto which the
binding pushes its results. -/
structure LuaState where
  args : List LuaValue
  stack : List LuaValue
  deriving DecidableEq, Repr

/-- Modelled from the spec: the binding layer (not under src/) that
marshals a caller argument into a native string. Following the Lua
runtime function luaL_checkstring, it yields the argument at the given
one-based index when it is a string, coerces a number in place to its
string representation, and otherwise raises a Lua argument error,
modelled as Except.error carrying the offending index; a raised error
aborts the C function, so no result is produced in that case. On success
it never yields a null pointer. -/
def luaL_checkstring (lua : LuaState) (idx : Nat) : Except Nat (LuaState × String) :=
  match lua.args.get? (idx - 1) with
  | some (LuaValue.str s) => Except.ok (lua, s)
  | some (LuaValue.number n) =>
      Except.ok ({ lua with args := lua.args.set (idx - 1) (LuaValue.str (toString n)) },
                 toString n)
  | _ => Except.error idx

/-- Modelled from the spec: the binding layer helper lua_pushboolean
(not under src/), which pushes one boolean value onto the result stack. -/
def lua_pushboolean (lua : LuaState) (b : Bool) : LuaState :=
  { lua with stack := lua.stack ++ [LuaValue.boolean b] }

/-- Modelled from the spec: the host operating system as the opaque
downstream collaborator sees it. cwd is the process-wide current working
directory; isDir tells whether a path names an existing, accessible
directory; calls records, in order, every path for which a
working-directory change was requested of the OS. -/
structure OS where
  cwd : String
  isDir : String → Bool
  calls : List String

/-- Modelled from the spec: the opaque OS primitive
tb_directory_current_set, alias try_set_cwd (not under src/). It reports
success exactly when the path names an existing, accessible directory, in
which case the current working directory becomes that path; on failure
the current working directory is left unchanged. Either way the request
is recorded in calls. -/
def tb_directory_current_set (path : String) (os : OS) : Bool × OS :=
  if os.isDir path then
    (true, { os with cwd := path, calls := os.calls ++ [path] })
  else
    (false, { os with calls := os.calls ++ [path] })

/-- The observable outcome of one call of xm_os_chdir: either the C
function returns normally, with its integer return value (the number of
Lua results) and the final Lua state, or luaL_checkstring raised a Lua
argument error, which leaves the function without returning. -/
inductive XmOutcome where
  | ret (n : Int) (lua : Option LuaState)
  | argError (idx : Nat)
  deriving DecidableEq, Repr

/-- Translation of xm_os_chdir from src/core/src/xmake/os/chdir.c.
Line 43, tb_assert_and_check_return_val(lua, 0): on a null state the
function returns 0 at once. Line 46, luaL_checkstring(lua, 1): extracts
the path, raising a Lua argument error on a bad argument. Line 47,
tb_check_return_val(path, 0): would return 0 on a null path, but
luaL_checkstring never produces one, so this check always passes.
Line 50: the boolean outcome of tb_directory_current_set(path) is pushed
onto the Lua stack. Line 53: the function returns 1. -/
def xm_os_chdir (lua : Option LuaState) (os : OS) : XmOutcome × OS :=
  match lua with
  | none => (XmOutcome.ret 0 none, os)
  | some st =>
    match luaL_checkstring st 1 with
    | Except.error idx => (XmOutcome.argError idx, os)
    | Except.ok (st', path) =>
      let r := tb_directory_current_set path os
      (XmOutcome.ret 1 (some (lua_pushboolean st' r.1)), r.2)

/-- Does the option hold a Lua string or a Lua number? Used to state when
luaL_checkstring rejects the first argument. -/
def isStringOrNumber : Option LuaValue → Bool
  | some (LuaValue.str _) => true
  | some (LuaValue.number _) => true
  | _ => false

/-- A concrete host for witnesses: current directory is the root, and
exactly the path "/tmp" names an existing directory. -/
def osTmp : OS :=
  { cwd := "/", isDir := fun s => s == "/tmp", calls := [] }

/-- A concrete host for witnesses on the failure side: no path names an
existing directory. -/
def osNone : OS :=
  { cwd := "/home", isDir := fun _ => false, calls := [] }

/-- C1: whenever argument extraction yields a path, xm_os_chdir returns
normally and its single boolean result is exactly the outcome reported by
the OS primitive tb_directory_current_set for that path, the OS state
being exactly the one the primitive produced; no other condition affects
the boolean. In particular the result is true iff the primitive reports
success. -/
theorem chdir_translates_os_outcome (st st' : LuaState) (os : OS) (path : String)
    (h : luaL_checkstring st 1 = Except.ok (st', path)) :
    xm_os_chdir (some st) os =
      (XmOutcome.ret 1 (some (lua_pushboolean st' (tb_directory_current_set path os).1)),
       (tb_directory_current_set path os).2) := by
  simp [xm_os_chdir, h]

/-- Witness for C1 at the concrete path "/tmp" on the host osTmp. -/
theorem chdir_translates_os_outcome_witness :
    luaL_checkstring { args := [LuaValue.str "/tmp"], stack := [] } 1
        = Except.ok ({ args := [LuaValue.str "/tmp"], stack := [] }, "/tmp") ∧
    xm_os_chdir (some { args := [LuaValue.str "/tmp"], stack := [] }) osTmp =
      (XmOutcome.ret 1 (some (lua_pushboolean { args := [LuaValue.str "/tmp"], stack := [] }
          (tb_directory_current_set "/tmp" osTmp).1)),
       (tb_directory_current_set "/tmp" osTmp).2) :=
  ⟨rfl, chdir_translates_os_outcome _ _ _ _ rfl⟩

/-- C2: when the working-directory change fails, the function still
returns normally and communicates the failure solely as the boolean false
pushed as its single result: no Lua error is raised, nothing is aborted,
and the outcome is a plain return of one value. -/
theorem chdir_failure_is_boolean_only (st st' : LuaState) (os : OS) (path : String)
    (h : luaL_checkstring st 1 = Except.ok (st', path))
    (hfail : (tb_directory_current_set path os).1 = false) :
    (xm_os_chdir (some st) os).1 = XmOutcome.ret 1 (some (lua_pushboolean st' false)) := by
  simp [xm_os_chdir, h, hfail]

/-- Witness for C2 at a path that names no directory on the host osNone. -/
theorem chdir_failure_is_boolean_only_witness :
    luaL_checkstring { args := [LuaValue.str "/nope"], stack := [] } 1
        = Except.ok ({ args := [LuaValue.str "/nope"], stack := [] }, "/nope") ∧
    (tb_directory_current_set "/nope" osNone).1 = false ∧
    (xm_os_chdir (some { args := [LuaValue.str "/nope"], stack := [] }) osNone).1
        = XmOutcome.ret 1
            (some (lua_pushboolean { args := [LuaValue.str "/nope"], stack := [] } false)) :=
  ⟨rfl, rfl, chdir_failure_is_boolean_only _ _ _ _ rfl rfl⟩

/-- C3 counterexample: with the empty string supplied as the path, the
working-directory change IS requested of the OS: after the call, the list
of requests the OS has recorded is no longer empty (it is [""]), refuting
that the operation is not attempted on an empty-string input. -/
theorem chdir_empty_counterexample :
    ¬ (((xm_os_chdir (some { args := [LuaValue.str ""], stack := [] }) osNone).2).calls
        = ([] : List String)) := by
  decide

/-- C3 amended: an empty-string path is accepted by argument extraction
and the working-directory change is requested of the OS with the empty
string; provided the empty string names no existing directory, the call
returns false as its single boolean result and terminates normally,
without crashing. -/
theorem chdir_empty_returns_false (st : LuaState) (os : OS)
    (harg : st.args[0]? = some (LuaValue.str ""))
    (hdir : os.isDir "" = false) :
    xm_os_chdir (some st) os =
      (XmOutcome.ret 1 (some (lua_pushboolean st false)),
       { os with calls := os.calls ++ [""] }) := by
  have h1 : luaL_checkstring st 1 = Except.ok (st, "") := by
    simp [luaL_checkstring, harg]
  simp [xm_os_chdir, h1, tb_directory_current_set, hdir]

/-- Witness for the amended C3 at the concrete empty-string input. -/
theorem chdir_empty_returns_false_witness :
    ({ args := [LuaValue.str ""], stack := [] } : LuaState).args[0]?
        = some (LuaValue.str "") ∧
    osNone.isDir "" = false ∧
    xm_os_chdir (some { args := [LuaValue.str ""], stack := [] }) osNone =
      (XmOutcome.ret 1 (some (lua_pushboolean { args := [LuaValue.str ""], stack := [] } false)),
       { osNone with calls := osNone.calls ++ [""] }) :=
  ⟨rfl, rfl, chdir_empty_returns_false _ _ rfl rfl⟩

/-- C4: for a path that names no existing, accessible directory, the call
returns false as its single boolean result and the current working
directory of the process afterwards equals the one before the call. -/
theorem chdir_error_leaves_cwd (st st' : LuaState) (os : OS) (path : String)
    (h : luaL_checkstring st 1 = Except.ok (st', path))
    (hdir : os.isDir path = false) :
    (xm_os_chdir (some st) os).1 = XmOutcome.ret 1 (some (lua_pushboolean st' false)) ∧
    ((xm_os_chdir (some st) os).2).cwd = os.cwd := by
  constructor <;> simp [xm_os_chdir, h, tb_directory_current_set, hdir]

/-- Witness for C4: the path "/this/path/does/not/exist" on the host
osTmp, where only "/tmp" exists; the result is false and cwd stays "/". -/
theorem chdir_error_leaves_cwd_witness :
    luaL_checkstring { args := [LuaValue.str "/this/path/does/not/exist"], stack := [] } 1
        = Except.ok ({ args := [LuaValue.str "/this/path/does/not/exist"], stack := [] },
                     "/this/path/does/not/exist") ∧
    osTmp.isDir "/this/path/does/not/exist" = false ∧
    ((xm_os_chdir (some { args := [LuaValue.str "/this/path/does/not/exist"], stack := [] })
        osTmp).1
      = XmOutcome.ret 1
          (some (lua_pushboolean
            { args := [LuaValue.str "/this/path/does/not/exist"], stack := [] } false)) ∧
     ((xm_os_chdir (some { args := [LuaValue.str "/this/path/does/not/exist"], stack := [] })
        osTmp).2).cwd = osTmp.cwd) :=
  ⟨rfl, rfl, chdir_error_leaves_cwd _ _ _ _ rfl rfl⟩

/-- C5: for a path that names an existing, accessible directory, the call
returns true as its single boolean result and the current working
directory of the process afterwards is that path. -/
theorem chdir_success_sets_cwd (st st' : LuaState) (os : OS) (path : String)
    (h : luaL_checkstring st 1 = Except.ok (st', path))
    (hdir : os.isDir path = true) :
    (xm_os_chdir (some st) os).1 = XmOutcome.ret 1 (some (lua_pushboolean st' true)) ∧
    ((xm_os_chdir (some st) os).2).cwd = path := by
  constructor <;> simp [xm_os_chdir, h, tb_directory_current_set, hdir]

/-- Witness for C5, the concrete scenario of the claim: "/tmp" exists on
the host osTmp, and changing the directory to "/tmp" returns true, with
cwd equal to "/tmp" afterwards. -/
theorem chdir_success_sets_cwd_witness :
    luaL_checkstring { args := [LuaValue.str "/tmp"], stack := [] } 1
        = Except.ok ({ args := [LuaValue.str "/tmp"], stack := [] }, "/tmp") ∧
    osTmp.isDir "/tmp" = true ∧
    ((xm_os_chdir (some { args := [LuaValue.str "/tmp"], stack := [] }) osTmp).1
      = XmOutcome.ret 1
          (some (lua_pushboolean { args := [LuaValue.str "/tmp"], stack := [] } true)) ∧
     ((xm_os_chdir (some { args := [LuaValue.str "/tmp"], stack := [] }) osTmp).2).cwd
        = "/tmp") :=
  ⟨rfl, rfl, chdir_success_sets_cwd _ _ _ _ rfl rfl⟩

/-- C6: idempotence in outcome. For a valid existing-directory path p,
two successive calls with argument p both return true, and the current
working directory equals p after the first call and after the second. -/
theorem chdir_idempotent (p : String) (os : OS) (hdir : os.isDir p = true) :
    (xm_os_chdir (some { args := [LuaValue.str p], stack := [] }) os).1
        = XmOutcome.ret 1 (some { args := [LuaValue.str p],
                                  stack := [LuaValue.boolean true] }) ∧
    ((xm_os_chdir (some { args := [LuaValue.str p], stack := [] }) os).2).cwd = p ∧
    (xm_os_chdir (some { args := [LuaValue.str p], stack := [] })
        ((xm_os_chdir (some { args := [LuaValue.str p], stack := [] }) os).2)).1
        = XmOutcome.ret 1 (some { args := [LuaValue.str p],
                                  stack := [LuaValue.boolean true] }) ∧
    ((xm_os_chdir (some { args := [LuaValue.str p], stack := [] })
        ((xm_os_chdir (some { args := [LuaValue.str p], stack := [] }) os).2)).2).cwd = p := by
  refine ⟨?_, ?_, ?_, ?_⟩ <;>
    simp [xm_os_chdir, luaL_checkstring, tb_directory_current_set, lua_pushboolean, hdir]

/-- Witness for C6 at the concrete path "/tmp" on the host osTmp. -/
theorem chdir_idempotent_witness :
    osTmp.isDir "/tmp" = true ∧
    ((xm_os_chdir (some { args := [LuaValue.str "/tmp"], stack := [] }) osTmp).1
        = XmOutcome.ret 1 (some { args := [LuaValue.str "/tmp"],
                                  stack := [LuaValue.boolean true] }) ∧
     ((xm_os_chdir (some { args := [LuaValue.str "/tmp"], stack := [] }) osTmp).2).cwd
        = "/tmp" ∧
     (xm_os_chdir (some { args := [LuaValue.str "/tmp"], stack := [] })
        ((xm_os_chdir (some { args := [LuaValue.str "/tmp"], stack := [] }) osTmp).2)).1
        = XmOutcome.ret 1 (some { args := [LuaValue.str "/tmp"],
                                  stack := [LuaValue.boolean true] }) ∧
     ((xm_os_chdir (some { args := [LuaValue.str "/tmp"], stack := [] })
        ((xm_os_chdir (some { args := [LuaValue.str "/tmp"], stack := [] }) osTmp).2)).2).cwd
        = "/tmp") :=
  ⟨rfl, chdir_idempotent "/tmp" osTmp rfl⟩

/-- C7: whenever a path argument is successfully extracted, the function
yields exactly one result value to the caller (the integer return value
is 1 and exactly one value is appended to the result stack), and that
value is a boolean; no richer error detail accompanies or replaces it. -/
theorem chdir_single_boolean_result (st : LuaState) (os : OS)
    (h : isStringOrNumber st.args[0]? = true) :
    ∃ b : Bool, ∃ a : List LuaValue,
      (xm_os_chdir (some st) os).1
        = XmOutcome.ret 1 (some { args := a, stack := st.stack ++ [LuaValue.boolean b] }) := by
  match harg : st.args[0]? with
  | some (LuaValue.str s) =>
      exact ⟨(tb_directory_current_set s os).1, st.args, by
        simp [xm_os_chdir, luaL_checkstring, harg, lua_pushboolean]⟩
  | some (LuaValue.number n) =>
      exact ⟨(tb_directory_current_set (toString n) os).1,
             st.args.set 0 (LuaValue.str (toString n)), by
        simp [xm_os_chdir, luaL_checkstring, harg, lua_pushboolean]⟩
  | some LuaValue.nil | some (LuaValue.boolean _) | some LuaValue.table | none =>
      simp [isStringOrNumber, harg] at h

/-- Witness for C7 at the concrete path "/tmp" on the host osTmp. -/
theorem chdir_single_boolean_result_witness :
    isStringOrNumber ({ args := [LuaValue.str "/tmp"], stack := [] } : LuaState).args[0]?
        = true ∧
    (∃ b : Bool, ∃ a : List LuaValue,
      (xm_os_chdir (some { args := [LuaValue.str "/tmp"], stack := [] }) osTmp).1
        = XmOutcome.ret 1 (some { args := a, stack := [] ++ [LuaValue.boolean b] })) :=
  ⟨rfl, chdir_single_boolean_result { args := [LuaValue.str "/tmp"], stack := [] } osTmp rfl⟩

/-- C8: on a null Lua state pointer, xm_os_chdir returns 0 at once with
no final Lua state, and the OS is returned exactly as it was: no argument
is extracted and no working-directory change is requested (in particular
the list of recorded OS requests is unchanged). -/
theorem chdir_null_state (os : OS) :
    xm_os_chdir none os = (XmOutcome.ret 0 none, os) :=
  rfl

/-- C9: when the first argument is neither a string nor a number,
argument extraction raises a Lua argument error for index 1 before any
working-directory change, the OS is returned exactly as it was (so the
primitive was never invoked), and the outcome is not a normal return, so
no boolean result is produced. -/
theorem chdir_bad_arg_raises (st : LuaState) (os : OS)
    (h : isStringOrNumber st.args[0]? = false) :
    xm_os_chdir (some st) os = (XmOutcome.argError 1, os) := by
  match harg : st.args[0]? with
  | some (LuaValue.str s) | some (LuaValue.number n) =>
      simp [isStringOrNumber, harg] at h
  | some LuaValue.nil =>
      simp [xm_os_chdir, luaL_checkstring, harg]
  | some (LuaValue.boolean b) =>
      simp [xm_os_chdir, luaL_checkstring, harg]
  | some LuaValue.table =>
      simp [xm_os_chdir, luaL_checkstring, harg]
  | none =>
      simp [xm_os_chdir, luaL_checkstring, harg]

/-- Witness for C9 at a concrete boolean first argument. -/
theorem chdir_bad_arg_raises_witness :
    isStringOrNumber ({ args := [LuaValue.boolean true], stack := [] } : LuaState).args[0]?
        = false ∧
    xm_os_chdir (some { args := [LuaValue.boolean true], stack := [] }) osTmp
        = (XmOutcome.argError 1, osTmp) :=
  ⟨rfl, chdir_bad_arg_raises { args := [LuaValue.boolean true], stack := [] } osTmp rfl⟩

/-- C10: a numeric first argument is accepted: the call behaves exactly
as if the caller had passed the string representation of that number,
including the coercion of the argument slot in place, the request made to
the OS, the resulting OS state and the boolean result. -/
theorem chdir_number_coerced (n : Int) (rest stk : List LuaValue) (os : OS) :
    xm_os_chdir (some { args := LuaValue.number n :: rest, stack := stk }) os =
      xm_os_chdir (some { args := LuaValue.str (toString n) :: rest, stack := stk }) os := by
  simp [xm_os_chdir, luaL_checkstring]

end XmakeChdir
